import Mathlib

/-!
# The `aws_servicequotas_service_quota` resource

A shallow embedding of `aws/resource_aws_servicequotas_service_quota.go` and the
properties of its identifier parser and of its Create / Read / Update entry points.

Conventions of the embedding

* A Go `string` is a Lean `String`. The only separator the source splits on is `/`,
  one byte that never occurs inside a multi-byte UTF-8 sequence, so splitting on
  characters and splitting on bytes agree.
* A Go pointer (`*string`, `*float64`, `*ServiceQuota`, an output struct) is an
  `Option`; `nil` is `none`. Selecting a field through a `nil` pointer ends the run
  with `Outcome.nilDereference`.
* A Go `error` is an `Option GoError`; `nil` is `none`.
* The Service Quotas client is a family of transition functions on an arbitrary
  remote state `σ`: each call maps the remote state and the request to the pair
  `(output, err)` the SDK returns and the next remote state. Nothing is assumed
  about it.
* Every run records, in order, the upstream calls it issued.
-/

namespace AwsServiceQuotas

/-! ## Go values -/

/-- A `float64` as far as the source uses it: values are only compared (`>`) and
copied. `fin q` stands for the finite value `q` (both signed zeros are `fin 0`,
they compare equal); every finite `float64` is such a `q`. -/
inductive Float64 where
  | nan
  | negInf
  | fin (q : ℚ)
  | posInf
deriving DecidableEq

namespace Float64

/-- Go `a > b` on `float64`: false as soon as one side is NaN. -/
def gt : Float64 → Float64 → Bool
  | nan, _ => false
  | _, nan => false
  | negInf, _ => false
  | fin _, negInf => true
  | fin p, fin q => decide (q < p)
  | fin _, posInf => false
  | posInf, posInf => false
  | posInf, _ => true

/-- Go `a <= b` on `float64`: false as soon as one side is NaN. -/
def le : Float64 → Float64 → Bool
  | nan, _ => false
  | _, nan => false
  | negInf, _ => true
  | fin _, negInf => false
  | fin p, fin q => decide (p ≤ q)
  | fin _, posInf => true
  | posInf, posInf => true
  | posInf, _ => false

end Float64

/-- A Go `error` value. `awsErr` is a value implementing `awserr.Error`, with its
`Code()`, its `Message()` and the text its `Error()` renders; `other` is any other
error, with the text of its `Error()`. -/
inductive GoError where
  | awsErr (code message text : String)
  | other (text : String)
deriving DecidableEq

/-- The method `err.Error()`, which the verb `%s` prints. -/
def GoError.Error : GoError → String
  | .awsErr _ _ text => text
  | .other text => text

/-- The call `fmt.Errorf(format, args...)` with the format already applied to its
arguments: an error value that is not an `awserr.Error`. -/
def fmt.Errorf (text : String) : GoError := GoError.other text

/-- The call `aws.StringValue(p)`: the pointed string, `""` for `nil`. -/
def aws.StringValue : Option String → String
  | some v => v
  | none => ""

/-- The call `aws.Float64Value(p)`: the pointed number, `0` for `nil`. -/
def aws.Float64Value : Option Float64 → Float64
  | some v => v
  | none => Float64.fin 0

/-- The call `aws.String(v)`: a pointer to `v`. -/
def aws.String (v : String) : Option String := some v

/-- The call `aws.Float64(v)`: a pointer to `v`. -/
def aws.Float64 (v : Float64) : Option Float64 := some v

/-! ## `strings.SplitN` with a one-byte separator -/

/-- The call `strings.Index(s, sep)` for a one-byte `sep`: the position of the first
`sep` in `s`; `none` is Go's `-1`. -/
def strings.Index : List Char → Char → Option Nat
  | [], _ => none
  | c :: cs, sep => if c = sep then some 0 else (strings.Index cs sep).map (· + 1)

/-- The loop of `genSplit`: at most `k` more cuts, then the rest of the string is
the last piece. -/
def strings.genSplit : Char → Nat → List Char → List (List Char)
  | _, 0, s => [s]
  | sep, k + 1, s =>
    match strings.Index s sep with
    | none => [s]
    | some m => s.take m :: strings.genSplit sep k (s.drop (m + 1))

/-- The call `strings.SplitN(s, sep, n)` for a one-byte `sep` and `n ≥ 0` (the source
passes `"/"` and `2`): `nil` for `n = 0`; otherwise `n` is capped at `len(s) + 1` and
`s` is cut at the first `n - 1` separators. The length is counted in characters; for
`n = 2` the cap only applies to the empty string, whose length is `0` either way. -/
def strings.SplitN (s : String) (sep : Char) (n : Nat) : List String :=
  if n = 0 then []
  else
    let n := if n > s.data.length + 1 then s.data.length + 1 else n
    (strings.genSplit sep (n - 1) s.data).map String.mk

/-! ## SDK types (the fields the source reads or writes) -/

/-- The constant `servicequotas.ErrCodeNoSuchResourceException`. -/
def servicequotas.ErrCodeNoSuchResourceException : String := "NoSuchResourceException"

/-- The constant `servicequotas.RequestStatusPending`. -/
def servicequotas.RequestStatusPending : String := "PENDING"

/-- The constant `servicequotas.RequestStatusCaseOpened`. -/
def servicequotas.RequestStatusCaseOpened : String := "CASE_OPENED"

/-- The constant `servicequotas.RequestStatusApproved`. -/
def servicequotas.RequestStatusApproved : String := "APPROVED"

/-- The constant `servicequotas.RequestStatusDenied`. -/
def servicequotas.RequestStatusDenied : String := "DENIED"

/-- The constant `servicequotas.RequestStatusCaseClosed`. -/
def servicequotas.RequestStatusCaseClosed : String := "CASE_CLOSED"

/-- The struct `servicequotas.ServiceQuota`. -/
structure ServiceQuota where
  QuotaCode : Option String
  ServiceCode : Option String
  Value : Option Float64
deriving DecidableEq

/-- The struct `servicequotas.RequestedServiceQuotaChange`. -/
structure RequestedServiceQuotaChange where
  Id : Option String
  Status : Option String
  DesiredValue : Option Float64
deriving DecidableEq

/-- The struct `servicequotas.GetServiceQuotaInput`. -/
structure GetServiceQuotaInput where
  QuotaCode : Option String
  ServiceCode : Option String
deriving DecidableEq

/-- The struct `servicequotas.GetServiceQuotaOutput`. -/
structure GetServiceQuotaOutput where
  Quota : Option ServiceQuota
deriving DecidableEq

/-- The struct `servicequotas.RequestServiceQuotaIncreaseInput`. -/
structure RequestServiceQuotaIncreaseInput where
  DesiredValue : Option Float64
  QuotaCode : Option String
  ServiceCode : Option String
deriving DecidableEq

/-- The struct `servicequotas.RequestServiceQuotaIncreaseOutput`. -/
structure RequestServiceQuotaIncreaseOutput where
  RequestedQuota : Option RequestedServiceQuotaChange
deriving DecidableEq

/-- The struct `servicequotas.GetRequestedServiceQuotaChangeInput`. -/
structure GetRequestedServiceQuotaChangeInput where
  RequestId : Option String
deriving DecidableEq

/-- The struct `servicequotas.GetRequestedServiceQuotaChangeOutput`. -/
structure GetRequestedServiceQuotaChangeOutput where
  RequestedQuota : Option RequestedServiceQuotaChange
deriving DecidableEq

/-- One upstream call, with the request it carried. -/
inductive Call where
  | GetServiceQuota (input : GetServiceQuotaInput)
  | RequestServiceQuotaIncrease (input : RequestServiceQuotaIncreaseInput)
  | GetRequestedServiceQuotaChange (input : GetRequestedServiceQuotaChangeInput)
deriving DecidableEq

/-- Whether a call is a request-quota-increase call. -/
def Call.isIncrease : Call → Bool
  | .RequestServiceQuotaIncrease _ => true
  | _ => false

/-- The client `meta.(*AWSClient).servicequotasconn` over a remote state `σ`: each
operation returns the SDK's `(output, err)` pair and the next remote state. -/
structure Conn (σ : Type) where
  GetServiceQuota :
    σ → GetServiceQuotaInput → (Option GetServiceQuotaOutput × Option GoError) × σ
  RequestServiceQuotaIncrease :
    σ → RequestServiceQuotaIncreaseInput →
      (Option RequestServiceQuotaIncreaseOutput × Option GoError) × σ
  GetRequestedServiceQuotaChange :
    σ → GetRequestedServiceQuotaChangeInput →
      (Option GetRequestedServiceQuotaChangeOutput × Option GoError) × σ

/-- Modelled from the spec: the helper `isAWSErr(err, code, message)` is called by
Read but is not among the sources. The spec says one specific error code (resource
not found on the status lookup) is treated as a benign condition. The model answers
true exactly for an AWS service error that carries the given code and whose message
contains the given text; a `nil` error and any other error give false. Read passes
the empty text, so there the code alone decides. -/
def isAWSErr (err : Option GoError) (code : String) (message : String) : Bool :=
  match err with
  | some (.awsErr c m _) =>
    decide (c = code) && m.data.tails.any (fun t => message.data.isPrefixOf t)
  | _ => false

/-! ## Resource state -/

/-- The `*schema.ResourceData` of the resource: its ID and the five attributes of
the schema, each with the Go type `d.Get` yields for it. -/
structure ResourceData where
  id : String
  quota_code : String
  request_id : String
  request_status : String
  service_code : String
  value : Float64
deriving DecidableEq

namespace ResourceData

/-- The call `d.SetId(v)`. -/
def SetId (d : ResourceData) (v : String) : ResourceData := { d with id := v }

/-- The value `d.Set` stores for a string attribute: `ResourceData.Set` dereferences a
pointer argument, and a `nil` pointer stores the zero value `""`. A plain string `v`
is passed as `some v`. -/
def stored (p : Option String) : String := p.getD ""

/-- The value `d.Set` stores for the float attribute: the pointed number, and the zero
value `0` for a `nil` pointer. -/
def storedFloat (p : Option Float64) : Float64 := p.getD (Float64.fin 0)

/-- The call `d.Set("quota_code", p)`. -/
def Set_quota_code (d : ResourceData) (p : Option String) : ResourceData :=
  { d with quota_code := stored p }

/-- The call `d.Set("service_code", p)`. -/
def Set_service_code (d : ResourceData) (p : Option String) : ResourceData :=
  { d with service_code := stored p }

/-- The call `d.Set("value", p)`. -/
def Set_value (d : ResourceData) (p : Option Float64) : ResourceData :=
  { d with value := storedFloat p }

/-- The call `d.Set("request_id", p)`. -/
def Set_request_id (d : ResourceData) (p : Option String) : ResourceData :=
  { d with request_id := stored p }

/-- The call `d.Set("request_status", p)`. -/
def Set_request_status (d : ResourceData) (p : Option String) : ResourceData :=
  { d with request_status := stored p }

end ResourceData

/-- How a lifecycle function ends: it returns its `error` result (`none` is `nil`),
or the Go runtime stops it on a nil pointer dereference. -/
inductive Outcome where
  | returned (err : Option GoError)
  | nilDereference
deriving DecidableEq

/-- The result of running a lifecycle function: how it ended, the resource data and
the remote state it left, and the upstream calls it issued, in order. -/
structure Run (σ : Type) where
  outcome : Outcome
  d : ResourceData
  remote : σ
  calls : List Call

/-- The run `r` continued from a point where `pre` had already been issued. -/
def Run.after {σ : Type} (pre : List Call) (r : Run σ) : Run σ :=
  { r with calls := pre ++ r.calls }

/-! ## The source functions -/

/-- The function `resourceAwsServiceQuotasServiceQuotaParseID`: the two parts of
`SERVICE-CODE/QUOTA-CODE` and a `nil` error, or two empty strings and the format
error. -/
def resourceAwsServiceQuotasServiceQuotaParseID (id : String) :
    String × String × Option GoError :=
  match strings.SplitN id '/' 2 with
  | [p0, p1] =>
    if p0 = "" ∨ p1 = "" then
      ("", "", some (fmt.Errorf
        ("unexpected format of ID (" ++ id ++ "), expected SERVICE-CODE/QUOTA-CODE")))
    else (p0, p1, none)
  | _ =>
    ("", "", some (fmt.Errorf
      ("unexpected format of ID (" ++ id ++ "), expected SERVICE-CODE/QUOTA-CODE")))

/-- The function `resourceAwsServiceQuotasServiceQuotaRead`. -/
def resourceAwsServiceQuotasServiceQuotaRead {σ : Type} (conn : Conn σ)
    (d : ResourceData) (s : σ) : Run σ :=
  let requestID := d.request_id
  match resourceAwsServiceQuotasServiceQuotaParseID d.id with
  | (_, _, some err) => ⟨.returned (some err), d, s, []⟩
  | (serviceCode, quotaCode, none) =>
    let input : GetServiceQuotaInput :=
      { QuotaCode := aws.String quotaCode, ServiceCode := aws.String serviceCode }
    match conn.GetServiceQuota s input with
    | ((output, err), s) =>
      let calls := [Call.GetServiceQuota input]
      match err with
      | some err =>
        ⟨.returned (some (fmt.Errorf
          ("error getting Service Quotas Service Quota (" ++ d.id ++ "): " ++ err.Error))),
          d, s, calls⟩
      | none =>
        match output with
        | none =>
          ⟨.returned (some (fmt.Errorf
            ("error getting Service Quotas Service Quota (" ++ d.id ++ "): empty result"))),
            d, s, calls⟩
        | some output =>
          match output.Quota with
          | none => ⟨.nilDereference, d, s, calls⟩
          | some quota =>
            let d := d.Set_quota_code quota.QuotaCode
            let d := d.Set_service_code quota.ServiceCode
            let d := d.Set_value quota.Value
            if requestID ≠ "" then
              let input : GetRequestedServiceQuotaChangeInput :=
                { RequestId := aws.String requestID }
              match conn.GetRequestedServiceQuotaChange s input with
              | ((output, err), s) =>
                let calls := calls ++ [Call.GetRequestedServiceQuotaChange input]
                if isAWSErr err servicequotas.ErrCodeNoSuchResourceException "" then
                  let d := d.Set_request_id (some "")
                  let d := d.Set_request_status (some "")
                  ⟨.returned none, d, s, calls⟩
                else
                  match err with
                  | some err =>
                    ⟨.returned (some (fmt.Errorf
                      ("error getting Service Quotas Requested Service Quota Change ("
                        ++ requestID ++ "): " ++ err.Error))), d, s, calls⟩
                  | none =>
                    if output.isSome && (output.bind (·.RequestedQuota)).isSome then
                      ⟨.returned (some (fmt.Errorf
                        ("error getting Service Quotas Requested Service Quota Change ("
                          ++ requestID ++ "): empty result"))), d, s, calls⟩
                    else
                      match output with
                      | none => ⟨.nilDereference, d, s, calls⟩
                      | some output =>
                        match output.RequestedQuota with
                        | none => ⟨.nilDereference, d, s, calls⟩
                        | some requestedQuota =>
                          let requestStatus := aws.StringValue requestedQuota.Status
                          let d := d.Set_request_status (some requestStatus)
                          if requestStatus = servicequotas.RequestStatusApproved
                              ∨ requestStatus = servicequotas.RequestStatusCaseClosed
                              ∨ requestStatus = servicequotas.RequestStatusDenied then
                            ⟨.returned none, d.Set_request_id (some ""), s, calls⟩
                          else if requestStatus = servicequotas.RequestStatusCaseOpened
                              ∨ requestStatus = servicequotas.RequestStatusPending then
                            ⟨.returned none, d.Set_value requestedQuota.DesiredValue, s, calls⟩
                          else ⟨.returned none, d, s, calls⟩
            else ⟨.returned none, d, s, calls⟩

/-- The function `resourceAwsServiceQuotasServiceQuotaCreate`. -/
def resourceAwsServiceQuotasServiceQuotaCreate {σ : Type} (conn : Conn σ)
    (d : ResourceData) (s : σ) : Run σ :=
  let quotaCode := d.quota_code
  let serviceCode := d.service_code
  let value := d.value
  let d := d.SetId (serviceCode ++ "/" ++ quotaCode)
  let input : GetServiceQuotaInput :=
    { QuotaCode := aws.String quotaCode, ServiceCode := aws.String serviceCode }
  match conn.GetServiceQuota s input with
  | ((output, err), s) =>
    let calls := [Call.GetServiceQuota input]
    match err with
    | some err =>
      ⟨.returned (some (fmt.Errorf
        ("error getting Service Quotas Service Quota (" ++ d.id ++ "): " ++ err.Error))),
        d, s, calls⟩
    | none =>
      match output with
      | none =>
        ⟨.returned (some (fmt.Errorf
          ("error getting Service Quotas Service Quota (" ++ d.id ++ "): empty result"))),
          d, s, calls⟩
      | some output =>
        match output.Quota with
        | none => ⟨.nilDereference, d, s, calls⟩
        | some quota =>
          if Float64.gt value (aws.Float64Value quota.Value) then
            let input : RequestServiceQuotaIncreaseInput :=
              { DesiredValue := aws.Float64 value,
                QuotaCode := aws.String quotaCode,
                ServiceCode := aws.String serviceCode }
            match conn.RequestServiceQuotaIncrease s input with
            | ((output, err), s) =>
              let calls := calls ++ [Call.RequestServiceQuotaIncrease input]
              match err with
              | some err =>
                ⟨.returned (some (fmt.Errorf
                  ("error requesting Service Quota (" ++ d.id ++ ") increase: "
                    ++ err.Error))), d, s, calls⟩
              | none =>
                match output.bind (·.RequestedQuota) with
                | none =>
                  ⟨.returned (some (fmt.Errorf
                    ("error requesting Service Quota (" ++ d.id
                      ++ ") increase: empty result"))), d, s, calls⟩
                | some requestedQuota =>
                  let d := d.Set_request_id requestedQuota.Id
                  Run.after calls (resourceAwsServiceQuotasServiceQuotaRead conn d s)
          else Run.after calls (resourceAwsServiceQuotasServiceQuotaRead conn d s)

/-- The function `resourceAwsServiceQuotasServiceQuotaUpdate`. -/
def resourceAwsServiceQuotasServiceQuotaUpdate {σ : Type} (conn : Conn σ)
    (d : ResourceData) (s : σ) : Run σ :=
  let value := d.value
  match resourceAwsServiceQuotasServiceQuotaParseID d.id with
  | (_, _, some err) => ⟨.returned (some err), d, s, []⟩
  | (serviceCode, quotaCode, none) =>
    let input : RequestServiceQuotaIncreaseInput :=
      { DesiredValue := aws.Float64 value,
        QuotaCode := aws.String quotaCode,
        ServiceCode := aws.String serviceCode }
    match conn.RequestServiceQuotaIncrease s input with
    | ((output, err), s) =>
      let calls := [Call.RequestServiceQuotaIncrease input]
      match err with
      | some err =>
        ⟨.returned (some (fmt.Errorf
          ("error requesting Service Quota (" ++ d.id ++ ") increase: " ++ err.Error))),
          d, s, calls⟩
      | none =>
        match output.bind (·.RequestedQuota) with
        | none =>
          ⟨.returned (some (fmt.Errorf
            ("error requesting Service Quota (" ++ d.id ++ ") increase: empty result"))),
            d, s, calls⟩
        | some requestedQuota =>
          let d := d.Set_request_id requestedQuota.Id
          Run.after calls (resourceAwsServiceQuotasServiceQuotaRead conn d s)


/-! ## Concrete clients and resource data for the worked examples -/

/-- A client whose three operations each give one fixed answer, whatever the request;
its remote state is trivial. -/
def Conn.fixed (getQuota : Option GetServiceQuotaOutput × Option GoError)
    (increase : Option RequestServiceQuotaIncreaseOutput × Option GoError)
    (lookup : Option GetRequestedServiceQuotaChangeOutput × Option GoError) : Conn Unit :=
  { GetServiceQuota := fun s _ => (getQuota, s)
    RequestServiceQuotaIncrease := fun s _ => (increase, s)
    GetRequestedServiceQuotaChange := fun s _ => (lookup, s) }

/-- A successful get-quota answer for quota `L-1234` of service `ec2` with value `v`. -/
def ec2Quota (v : ℚ) : Option GetServiceQuotaOutput × Option GoError :=
  (some { Quota := some { QuotaCode := some "L-1234", ServiceCode := some "ec2",
                          Value := some (Float64.fin v) } }, none)

/-- A quota change request `req-1` with the given status and desired value `v`. -/
def ec2Request (status : String) (v : ℚ) : RequestedServiceQuotaChange :=
  { Id := some "req-1", Status := some status, DesiredValue := some (Float64.fin v) }

/-- Resource data for quota `ec2/L-1234` with the given `request_id` and value `v`. -/
def ec2Data (requestId : String) (v : ℚ) : ResourceData :=
  { id := "ec2/L-1234", quota_code := "L-1234", request_id := requestId,
    request_status := "", service_code := "ec2", value := Float64.fin v }

/-- The Read of `ec2Data "req-1" 20` (ID `ec2/L-1234`, `request_id = "req-1"`, local value
`20`) against a remote whose quota value is `10` and whose status lookup gives the answer
`lookup`. -/
def readWithLookup
    (lookup : Option GetRequestedServiceQuotaChangeOutput × Option GoError) : Run Unit :=
  resourceAwsServiceQuotasServiceQuotaRead
    (Conn.fixed (ec2Quota 10) (none, none) lookup) (ec2Data "req-1" 20) ()

/-! ## The identifier parser -/

theorem strings.Index_of_not_mem (sep : Char) :
    ∀ l : List Char, sep ∉ l → strings.Index l sep = none
  | [], _ => rfl
  | c :: cs, h => by
    have hc : c ≠ sep := fun e => h (e ▸ List.mem_cons_self _ _)
    have hcs : sep ∉ cs := fun m => h (List.mem_cons_of_mem _ m)
    simp [strings.Index, hc, strings.Index_of_not_mem sep cs hcs]

theorem strings.Index_append (sep : Char) (b : List Char) :
    ∀ a : List Char, sep ∉ a → strings.Index (a ++ sep :: b) sep = some a.length
  | [], _ => by simp [strings.Index]
  | c :: cs, h => by
    have hc : c ≠ sep := fun e => h (e ▸ List.mem_cons_self _ _)
    have hcs : sep ∉ cs := fun m => h (List.mem_cons_of_mem _ m)
    simp [strings.Index, hc, strings.Index_append sep b cs hcs]

theorem exists_first_sep (sep : Char) :
    ∀ l : List Char, sep ∈ l → ∃ a b, sep ∉ a ∧ l = a ++ sep :: b
  | [], h => by simp at h
  | c :: cs, h => by
    by_cases hc : c = sep
    · exact ⟨[], cs, by simp, by simp [hc]⟩
    · have hcs : sep ∈ cs := by
        rcases List.mem_cons.1 h with e | m
        · exact absurd e.symm hc
        · exact m
      obtain ⟨a, b, ha, hl⟩ := exists_first_sep sep cs hcs
      refine ⟨c :: a, b, ?_, by simp [hl]⟩
      intro m
      rcases List.mem_cons.1 m with e | m
      · exact hc e.symm
      · exact ha m

theorem strings.SplitN_two_of_not_mem (s : String) (h : '/' ∉ s.data) :
    strings.SplitN s '/' 2 = [s] := by
  rcases s with ⟨l⟩
  cases l with
  | nil => simp [strings.SplitN, strings.genSplit]
  | cons c cs =>
    simp [strings.SplitN, strings.genSplit, strings.Index_of_not_mem '/' (c :: cs) h]

theorem strings.SplitN_two_of_split (a b : List Char) (h : '/' ∉ a) :
    strings.SplitN ⟨a ++ '/' :: b⟩ '/' 2 = [⟨a⟩, ⟨b⟩] := by
  simp [strings.SplitN, strings.genSplit, strings.Index_append '/' b a h]


theorem data_of_join (a b : String) : (a ++ "/" ++ b).data = a.data ++ '/' :: b.data := by
  simp [String.data_append]

theorem parseID_of_not_mem (id : String) (h : '/' ∉ id.data) :
    resourceAwsServiceQuotasServiceQuotaParseID id =
      ("", "", some (fmt.Errorf
        ("unexpected format of ID (" ++ id ++ "), expected SERVICE-CODE/QUOTA-CODE"))) := by
  simp [resourceAwsServiceQuotasServiceQuotaParseID, strings.SplitN_two_of_not_mem id h]

theorem parseID_of_join (a b : String) (h : '/' ∉ a.data) :
    resourceAwsServiceQuotasServiceQuotaParseID (a ++ "/" ++ b) =
      if a = "" ∨ b = "" then
        ("", "", some (fmt.Errorf
          ("unexpected format of ID (" ++ (a ++ "/" ++ b)
            ++ "), expected SERVICE-CODE/QUOTA-CODE")))
      else (a, b, none) := by
  have hs : strings.SplitN (a ++ "/" ++ b) '/' 2 = [a, b] := by
    have e : (a ++ "/" ++ b) = ⟨a.data ++ '/' :: b.data⟩ := by
      apply String.ext
      simp [String.data_append]
    rw [e, strings.SplitN_two_of_split a.data b.data h]
  simp only [resourceAwsServiceQuotasServiceQuotaParseID, hs]

theorem exists_join (id : String) (h : '/' ∈ id.data) :
    ∃ a b : String, '/' ∉ a.data ∧ id = a ++ "/" ++ b := by
  obtain ⟨a, b, ha, hl⟩ := exists_first_sep '/' id.data h
  refine ⟨⟨a⟩, ⟨b⟩, ha, ?_⟩
  apply String.ext
  simp [String.data_append, hl]

/-- C1: `resourceAwsServiceQuotasServiceQuotaParseID id` succeeds exactly when `id` is
`a ++ "/" ++ b` with `a` free of `/` (so this `/` is the first one), `a` non-empty and
`b` non-empty; on success it returns `(a, b)` with `b` everything after the first `/`;
otherwise it returns two empty strings and the format error. `"ec2/L-1234"` yields
`("ec2", "L-1234")`; `"invalid"` and `"ec2/"` fail. -/
theorem parseID_contract :
    (∀ id : String,
      ((resourceAwsServiceQuotasServiceQuotaParseID id).2.2 = none ↔
        ∃ a b : String, '/' ∉ a.data ∧ a ≠ "" ∧ b ≠ "" ∧ id = a ++ "/" ++ b) ∧
      (∀ a b : String, '/' ∉ a.data → a ≠ "" → b ≠ "" → id = a ++ "/" ++ b →
        resourceAwsServiceQuotasServiceQuotaParseID id = (a, b, none)) ∧
      ((resourceAwsServiceQuotasServiceQuotaParseID id).2.2 ≠ none →
        resourceAwsServiceQuotasServiceQuotaParseID id =
          ("", "", some (fmt.Errorf
            ("unexpected format of ID (" ++ id ++ "), expected SERVICE-CODE/QUOTA-CODE"))))) ∧
    resourceAwsServiceQuotasServiceQuotaParseID "ec2/L-1234" = ("ec2", "L-1234", none) ∧
    resourceAwsServiceQuotasServiceQuotaParseID "invalid" =
      ("", "", some (fmt.Errorf
        "unexpected format of ID (invalid), expected SERVICE-CODE/QUOTA-CODE")) ∧
    resourceAwsServiceQuotasServiceQuotaParseID "ec2/" =
      ("", "", some (fmt.Errorf
        "unexpected format of ID (ec2/), expected SERVICE-CODE/QUOTA-CODE")) := by
  refine ⟨fun id => ⟨⟨?_, ?_⟩, ?_, ?_⟩, by decide, by decide, by decide⟩
  · intro hok
    by_cases hm : '/' ∈ id.data
    · obtain ⟨a, b, ha, rfl⟩ := exists_join id hm
      rw [parseID_of_join a b ha] at hok
      by_cases hab : a = "" ∨ b = ""
      · simp [hab] at hok
      · exact ⟨a, b, ha, fun e => hab (Or.inl e), fun e => hab (Or.inr e), rfl⟩
    · simp [parseID_of_not_mem id hm] at hok
  · rintro ⟨a, b, ha, ha0, hb0, rfl⟩
    simp [parseID_of_join a b ha, ha0, hb0]
  · rintro a b ha ha0 hb0 rfl
    simp [parseID_of_join a b ha, ha0, hb0]
  · intro hne
    by_cases hm : '/' ∈ id.data
    · obtain ⟨a, b, ha, rfl⟩ := exists_join id hm
      rw [parseID_of_join a b ha] at hne ⊢
      by_cases hab : a = "" ∨ b = ""
      · simp [hab]
      · simp [hab] at hne
    · exact parseID_of_not_mem id hm

/-- Witness for C1: the success clause applied to `"ec2/L-1234" = "ec2" ++ "/" ++ "L-1234"`. -/
theorem parseID_contract_witness :
    resourceAwsServiceQuotasServiceQuotaParseID "ec2/L-1234" = ("ec2", "L-1234", none) :=
  (parseID_contract.1 "ec2/L-1234").2.1 "ec2" "L-1234"
    (by decide) (by decide) (by decide) (by decide)

/-! ## Read -/

theorem Float64.not_gt_of_le (a b : Float64) (h : Float64.le a b = true) :
    Float64.gt a b = false := by
  cases a <;> cases b <;> simp_all [Float64.le, Float64.gt]

theorem isAWSErr_awsErr (code message text : String) :
    isAWSErr (some (GoError.awsErr code message text)) code "" = true := by
  cases hm : message.data <;> simp [isAWSErr, hm]

theorem read_no_increase {σ : Type} (conn : Conn σ) (d : ResourceData) (s : σ) :
    (resourceAwsServiceQuotasServiceQuotaRead conn d s).calls.filter Call.isIncrease = [] := by
  unfold resourceAwsServiceQuotasServiceQuotaRead
  dsimp only
  repeat' split
  all_goals simp [Call.isIncrease]

theorem read_id {σ : Type} (conn : Conn σ) (d : ResourceData) (s : σ) :
    (resourceAwsServiceQuotasServiceQuotaRead conn d s).d.id = d.id := by
  unfold resourceAwsServiceQuotasServiceQuotaRead
  dsimp only
  repeat' split
  all_goals simp [ResourceData.Set_quota_code, ResourceData.Set_service_code,
    ResourceData.Set_value, ResourceData.Set_request_id, ResourceData.Set_request_status]

theorem read_nil_clears {σ : Type} (conn : Conn σ) (d : ResourceData) (s : σ)
    (hreq : d.request_id ≠ "")
    (hnil : (resourceAwsServiceQuotasServiceQuotaRead conn d s).outcome = Outcome.returned none) :
    (resourceAwsServiceQuotasServiceQuotaRead conn d s).d.request_id = "" ∧
    (resourceAwsServiceQuotasServiceQuotaRead conn d s).d.request_status = "" := by
  revert hnil
  unfold resourceAwsServiceQuotasServiceQuotaRead
  dsimp only
  repeat' split
  all_goals simp_all [ResourceData.Set_quota_code, ResourceData.Set_service_code,
    ResourceData.Set_value, ResourceData.Set_request_id, ResourceData.Set_request_status, ResourceData.stored]


/-- C9: with a well-formed ID, a non-empty `request_id`, a get-quota call that succeeds
(it returns a quota) and a status lookup that succeeds with a result present (non-nil
output, non-nil `RequestedQuota`), Read returns the "empty result" error for that
request identifier, whatever the status of the request, and `request_id` and
`request_status` are as on entry. Hence a Read that starts with a non-empty `request_id`
and returns no error ends with `request_id` and `request_status` both empty. -/
theorem read_result_present_is_error {σ : Type} (conn : Conn σ) (d : ResourceData) (s : σ) :
    (∀ (serviceCode quotaCode : String) (quota : ServiceQuota)
        (requestedQuota : RequestedServiceQuotaChange) (s1 s2 : σ),
      resourceAwsServiceQuotasServiceQuotaParseID d.id = (serviceCode, quotaCode, none) →
      d.request_id ≠ "" →
      conn.GetServiceQuota s
          { QuotaCode := aws.String quotaCode, ServiceCode := aws.String serviceCode } =
        ((some { Quota := some quota }, none), s1) →
      conn.GetRequestedServiceQuotaChange s1 { RequestId := aws.String d.request_id } =
        ((some { RequestedQuota := some requestedQuota }, none), s2) →
      (resourceAwsServiceQuotasServiceQuotaRead conn d s).outcome =
          Outcome.returned (some (fmt.Errorf
            ("error getting Service Quotas Requested Service Quota Change ("
              ++ d.request_id ++ "): empty result"))) ∧
        (resourceAwsServiceQuotasServiceQuotaRead conn d s).d.request_id = d.request_id ∧
        (resourceAwsServiceQuotasServiceQuotaRead conn d s).d.request_status
          = d.request_status) ∧
    (d.request_id ≠ "" →
      (resourceAwsServiceQuotasServiceQuotaRead conn d s).outcome = Outcome.returned none →
      (resourceAwsServiceQuotasServiceQuotaRead conn d s).d.request_id = "" ∧
        (resourceAwsServiceQuotasServiceQuotaRead conn d s).d.request_status = "") := by
  refine ⟨?_, fun hreq hnil => read_nil_clears conn d s hreq hnil⟩
  intro serviceCode quotaCode quota requestedQuota s1 s2 hid hreq hget hlook
  simp [resourceAwsServiceQuotasServiceQuotaRead, hid, hget, hlook, hreq, isAWSErr,
    ResourceData.Set_quota_code, ResourceData.Set_service_code, ResourceData.Set_value]

/-- Witness for C9: a Read of `ec2/L-1234` with `request_id = "req-1"` whose lookup finds
the request with status `APPROVED`; and the second clause at a Read whose lookup reports
that no such request exists. -/
theorem read_result_present_is_error_witness :
    ((resourceAwsServiceQuotasServiceQuotaRead
        (Conn.fixed (ec2Quota 10) (none, none)
          (some { RequestedQuota := some (ec2Request "APPROVED" 20) }, none))
        (ec2Data "req-1" 20) ()).outcome =
          Outcome.returned (some (fmt.Errorf
            ("error getting Service Quotas Requested Service Quota Change ("
              ++ (ec2Data "req-1" 20).request_id ++ "): empty result"))) ∧
      (resourceAwsServiceQuotasServiceQuotaRead
        (Conn.fixed (ec2Quota 10) (none, none)
          (some { RequestedQuota := some (ec2Request "APPROVED" 20) }, none))
        (ec2Data "req-1" 20) ()).d.request_id = (ec2Data "req-1" 20).request_id ∧
      (resourceAwsServiceQuotasServiceQuotaRead
        (Conn.fixed (ec2Quota 10) (none, none)
          (some { RequestedQuota := some (ec2Request "APPROVED" 20) }, none))
        (ec2Data "req-1" 20) ()).d.request_status = (ec2Data "req-1" 20).request_status) ∧
    ((resourceAwsServiceQuotasServiceQuotaRead
        (Conn.fixed (ec2Quota 10) (none, none)
          (none, some (GoError.awsErr "NoSuchResourceException" "gone" "gone")))
        (ec2Data "req-1" 20) ()).d.request_id = "" ∧
      (resourceAwsServiceQuotasServiceQuotaRead
        (Conn.fixed (ec2Quota 10) (none, none)
          (none, some (GoError.awsErr "NoSuchResourceException" "gone" "gone")))
        (ec2Data "req-1" 20) ()).d.request_status = "") :=
  ⟨(read_result_present_is_error
      (Conn.fixed (ec2Quota 10) (none, none)
        (some { RequestedQuota := some (ec2Request "APPROVED" 20) }, none))
      (ec2Data "req-1" 20) ()).1 "ec2" "L-1234" _ (ec2Request "APPROVED" 20) () ()
      (by decide) (by decide) rfl rfl,
    (read_result_present_is_error
      (Conn.fixed (ec2Quota 10) (none, none)
        (none, some (GoError.awsErr "NoSuchResourceException" "gone" "gone")))
      (ec2Data "req-1" 20) ()).2 (by decide) (by decide)⟩


/-- C6: with a well-formed ID, a non-empty `request_id`, a get-quota call that succeeds
with a quota present and a status lookup that fails with the no-such-resource error
code, Read returns no error, `request_id` and `request_status` are both empty
afterwards, and `quota_code`, `service_code` and `value` hold what `d.Set` stores for
the fields of the get-quota response. -/
theorem read_no_such_resource {σ : Type} (conn : Conn σ) (d : ResourceData) (s s1 s2 : σ)
    (serviceCode quotaCode : String) (quota : ServiceQuota)
    (output : Option GetRequestedServiceQuotaChangeOutput) (message text : String)
    (hid : resourceAwsServiceQuotasServiceQuotaParseID d.id = (serviceCode, quotaCode, none))
    (hreq : d.request_id ≠ "")
    (hget : conn.GetServiceQuota s
        { QuotaCode := aws.String quotaCode, ServiceCode := aws.String serviceCode } =
      ((some { Quota := some quota }, none), s1))
    (hlook : conn.GetRequestedServiceQuotaChange s1 { RequestId := aws.String d.request_id } =
      ((output, some (GoError.awsErr servicequotas.ErrCodeNoSuchResourceException
        message text)), s2)) :
    (resourceAwsServiceQuotasServiceQuotaRead conn d s).outcome = Outcome.returned none ∧
    (resourceAwsServiceQuotasServiceQuotaRead conn d s).d.request_id = "" ∧
    (resourceAwsServiceQuotasServiceQuotaRead conn d s).d.request_status = "" ∧
    (resourceAwsServiceQuotasServiceQuotaRead conn d s).d.quota_code
      = ResourceData.stored quota.QuotaCode ∧
    (resourceAwsServiceQuotasServiceQuotaRead conn d s).d.service_code
      = ResourceData.stored quota.ServiceCode ∧
    (resourceAwsServiceQuotasServiceQuotaRead conn d s).d.value
      = ResourceData.storedFloat quota.Value := by
  have hb := isAWSErr_awsErr servicequotas.ErrCodeNoSuchResourceException message text
  simp [resourceAwsServiceQuotasServiceQuotaRead, hid, hget, hlook, hreq, hb,
    ResourceData.Set_quota_code, ResourceData.Set_service_code, ResourceData.Set_value,
    ResourceData.Set_request_id, ResourceData.Set_request_status, ResourceData.stored]

/-- Witness for C6: a Read of `ec2/L-1234` with `request_id = "req-1"`, current quota
value `10`, whose lookup reports `NoSuchResourceException`. -/
theorem read_no_such_resource_witness :
    (resourceAwsServiceQuotasServiceQuotaRead
        (Conn.fixed (ec2Quota 10) (none, none)
          (none, some (GoError.awsErr "NoSuchResourceException" "gone" "gone")))
        (ec2Data "req-1" 20) ()).outcome = Outcome.returned none ∧
    (resourceAwsServiceQuotasServiceQuotaRead
        (Conn.fixed (ec2Quota 10) (none, none)
          (none, some (GoError.awsErr "NoSuchResourceException" "gone" "gone")))
        (ec2Data "req-1" 20) ()).d =
      { id := "ec2/L-1234", quota_code := "L-1234", request_id := "",
        request_status := "", service_code := "ec2", value := Float64.fin 10 } := by
  have h := read_no_such_resource
    (Conn.fixed (ec2Quota 10) (none, none)
      (none, some (GoError.awsErr "NoSuchResourceException" "gone" "gone")))
    (ec2Data "req-1" 20) () () () "ec2" "L-1234"
    { QuotaCode := some "L-1234", ServiceCode := some "ec2", Value := some (Float64.fin 10) }
    none "gone" "gone" (by decide) (by decide) rfl rfl
  exact ⟨h.1, by decide⟩


/-- C2: when the get-quota call of Create succeeds with a quota present and the requested
value is less than or equal to the current remote value (a missing remote value counts as
`0`), Create is its get-quota call followed by Read on the resource data whose only change
is the ID, so `request_id` is not written before Read runs, and no call it issues is a
request-quota-increase call. -/
theorem create_no_increase_when_not_above {σ : Type} (conn : Conn σ) (d : ResourceData)
    (s s1 : σ) (quota : ServiceQuota)
    (hget : conn.GetServiceQuota s
        { QuotaCode := aws.String d.quota_code, ServiceCode := aws.String d.service_code } =
      ((some { Quota := some quota }, none), s1))
    (hle : Float64.le d.value (aws.Float64Value quota.Value) = true) :
    resourceAwsServiceQuotasServiceQuotaCreate conn d s =
      Run.after
        [Call.GetServiceQuota
          { QuotaCode := aws.String d.quota_code, ServiceCode := aws.String d.service_code }]
        (resourceAwsServiceQuotasServiceQuotaRead conn
          (d.SetId (d.service_code ++ "/" ++ d.quota_code)) s1) ∧
    (d.SetId (d.service_code ++ "/" ++ d.quota_code)).request_id = d.request_id ∧
    (resourceAwsServiceQuotasServiceQuotaCreate conn d s).calls.filter Call.isIncrease = [] := by
  have hgt := Float64.not_gt_of_le _ _ hle
  have h1 : resourceAwsServiceQuotasServiceQuotaCreate conn d s =
      Run.after
        [Call.GetServiceQuota
          { QuotaCode := aws.String d.quota_code, ServiceCode := aws.String d.service_code }]
        (resourceAwsServiceQuotasServiceQuotaRead conn
          (d.SetId (d.service_code ++ "/" ++ d.quota_code)) s1) := by
    simp [resourceAwsServiceQuotasServiceQuotaCreate, hget, hgt]
  refine ⟨h1, rfl, ?_⟩
  rw [h1]
  simp [Run.after, List.filter_append, read_no_increase, Call.isIncrease]

/-- Witness for C2: Create for `ec2/L-1234` asking for `5` while the remote value is `10`. -/
theorem create_no_increase_when_not_above_witness :
    (resourceAwsServiceQuotasServiceQuotaCreate
      (Conn.fixed (ec2Quota 10) (none, none) (none, none))
      (ec2Data "" 5) ()).calls.filter Call.isIncrease = [] :=
  (create_no_increase_when_not_above
    (Conn.fixed (ec2Quota 10) (none, none) (none, none)) (ec2Data "" 5) () ()
    { QuotaCode := some "L-1234", ServiceCode := some "ec2", Value := some (Float64.fin 10) }
    rfl (by decide)).2.2

theorem create_id {σ : Type} (conn : Conn σ) (d : ResourceData) (s : σ) :
    (resourceAwsServiceQuotasServiceQuotaCreate conn d s).d.id
      = d.service_code ++ "/" ++ d.quota_code := by
  unfold resourceAwsServiceQuotasServiceQuotaCreate
  dsimp only
  repeat' split
  all_goals simp [Run.after, read_id, ResourceData.SetId, ResourceData.Set_request_id]

/-! ## Update -/

/-- C7, as the code has it: for every client, remote state and resource data, so whatever
the current remote value of the quota is, an Update with a well-formed ID issues exactly
one request-quota-increase call, carrying the requested value and the codes parsed from
the ID; with a malformed ID it issues no call at all. -/
theorem update_always_requests {σ : Type} (conn : Conn σ) (d : ResourceData) (s : σ) :
    (∀ serviceCode quotaCode : String,
      resourceAwsServiceQuotasServiceQuotaParseID d.id = (serviceCode, quotaCode, none) →
      (resourceAwsServiceQuotasServiceQuotaUpdate conn d s).calls.filter Call.isIncrease =
        [Call.RequestServiceQuotaIncrease
          { DesiredValue := aws.Float64 d.value, QuotaCode := aws.String quotaCode,
            ServiceCode := aws.String serviceCode }]) ∧
    ((resourceAwsServiceQuotasServiceQuotaParseID d.id).2.2 ≠ none →
      (resourceAwsServiceQuotasServiceQuotaUpdate conn d s).calls = []) := by
  constructor
  · intro serviceCode quotaCode hid
    rcases hinc : conn.RequestServiceQuotaIncrease s
        { DesiredValue := aws.Float64 d.value, QuotaCode := aws.String quotaCode,
          ServiceCode := aws.String serviceCode } with ⟨⟨output, err⟩, s2⟩
    cases err with
    | some e =>
      simp [resourceAwsServiceQuotasServiceQuotaUpdate, hid, hinc, Call.isIncrease]
    | none =>
      cases hrq : output.bind (·.RequestedQuota) with
      | none =>
        simp [resourceAwsServiceQuotasServiceQuotaUpdate, hid, hinc, hrq, Call.isIncrease]
      | some rq =>
        simp [resourceAwsServiceQuotasServiceQuotaUpdate, hid, hinc, hrq, Call.isIncrease,
          Run.after, List.filter_append, read_no_increase]
  · intro hne
    rcases hid : resourceAwsServiceQuotasServiceQuotaParseID d.id with ⟨sc, qc, err⟩
    cases err with
    | none => simp [hid] at hne
    | some e => simp [resourceAwsServiceQuotasServiceQuotaUpdate, hid]

/-- Witness for C7 as amended: an Update of `ec2/L-1234` asking for `5` while the remote
value is `10`, and an Update whose ID is `invalid`. -/
theorem update_always_requests_witness :
    (resourceAwsServiceQuotasServiceQuotaUpdate
      (Conn.fixed (ec2Quota 10)
        (some { RequestedQuota := some (ec2Request "PENDING" 5) }, none)
        (some { RequestedQuota := some (ec2Request "PENDING" 5) }, none))
      (ec2Data "" 5) ()).calls.filter Call.isIncrease =
      [Call.RequestServiceQuotaIncrease
        { DesiredValue := aws.Float64 (ec2Data "" 5).value, QuotaCode := aws.String "L-1234",
          ServiceCode := aws.String "ec2" }] ∧
    (resourceAwsServiceQuotasServiceQuotaUpdate
      (Conn.fixed (ec2Quota 10)
        (some { RequestedQuota := some (ec2Request "PENDING" 5) }, none)
        (some { RequestedQuota := some (ec2Request "PENDING" 5) }, none))
      { ec2Data "" 5 with id := "invalid" } ()).calls = [] :=
  ⟨(update_always_requests
      (Conn.fixed (ec2Quota 10)
        (some { RequestedQuota := some (ec2Request "PENDING" 5) }, none)
        (some { RequestedQuota := some (ec2Request "PENDING" 5) }, none))
      (ec2Data "" 5) ()).1 "ec2" "L-1234" (by decide),
    (update_always_requests
      (Conn.fixed (ec2Quota 10)
        (some { RequestedQuota := some (ec2Request "PENDING" 5) }, none)
        (some { RequestedQuota := some (ec2Request "PENDING" 5) }, none))
      { ec2Data "" 5 with id := "invalid" } ()).2 (by decide)⟩

/-- C7 fails as stated: the remote value of `ec2/L-1234` is `10`, the requested value is
`5`, which is less than or equal to it, and Update still issues a request-quota-increase
call for `5`, as the first call of its run. The client answers the increase request with
the request `req-1` and the status lookup with that same request. -/
theorem update_requests_when_not_above :
    ((Conn.fixed (ec2Quota 10)
        (some { RequestedQuota := some (ec2Request "PENDING" 5) }, none)
        (some { RequestedQuota := some (ec2Request "PENDING" 5) }, none)).GetServiceQuota ()
        { QuotaCode := some "L-1234", ServiceCode := some "ec2" }).1 =
      (some { Quota := some { QuotaCode := some "L-1234", ServiceCode := some "ec2",
                              Value := some (Float64.fin 10) } }, none) ∧
    Float64.le (ec2Data "" 5).value (Float64.fin 10) = true ∧
    (resourceAwsServiceQuotasServiceQuotaUpdate
      (Conn.fixed (ec2Quota 10)
        (some { RequestedQuota := some (ec2Request "PENDING" 5) }, none)
        (some { RequestedQuota := some (ec2Request "PENDING" 5) }, none))
      (ec2Data "" 5) ()).calls =
      [Call.RequestServiceQuotaIncrease
        { DesiredValue := some (Float64.fin 5), QuotaCode := some "L-1234",
          ServiceCode := some "ec2" },
       Call.GetServiceQuota { QuotaCode := some "L-1234", ServiceCode := some "ec2" },
       Call.GetRequestedServiceQuotaChange { RequestId := some "req-1" }] := by
  decide

/-! ## The status lookup of Read on a result that is present, and on one that is absent -/

/-- C4 on the code: a Read with `request_id = "req-1"` whose lookup returns the request
with status `APPROVED`, `CASE_CLOSED` or `DENIED` returns the "empty result" error; the
resource data keeps `request_id = "req-1"` and an empty `request_status`. -/
theorem read_terminal_status_is_error :
    (readWithLookup
        (some { RequestedQuota := some (ec2Request servicequotas.RequestStatusApproved 20) }, none)).outcome =
      Outcome.returned (some (fmt.Errorf
        "error getting Service Quotas Requested Service Quota Change (req-1): empty result")) ∧
    (readWithLookup
        (some { RequestedQuota := some (ec2Request servicequotas.RequestStatusApproved 20) }, none)).d =
      { id := "ec2/L-1234", quota_code := "L-1234", request_id := "req-1",
        request_status := "", service_code := "ec2", value := Float64.fin 10 } ∧
    (readWithLookup
        (some { RequestedQuota := some (ec2Request servicequotas.RequestStatusCaseClosed 20) }, none)).outcome =
      Outcome.returned (some (fmt.Errorf
        "error getting Service Quotas Requested Service Quota Change (req-1): empty result")) ∧
    (readWithLookup
        (some { RequestedQuota := some (ec2Request servicequotas.RequestStatusCaseClosed 20) }, none)).d =
      { id := "ec2/L-1234", quota_code := "L-1234", request_id := "req-1",
        request_status := "", service_code := "ec2", value := Float64.fin 10 } ∧
    (readWithLookup
        (some { RequestedQuota := some (ec2Request servicequotas.RequestStatusDenied 20) }, none)).outcome =
      Outcome.returned (some (fmt.Errorf
        "error getting Service Quotas Requested Service Quota Change (req-1): empty result")) ∧
    (readWithLookup
        (some { RequestedQuota := some (ec2Request servicequotas.RequestStatusDenied 20) }, none)).d =
      { id := "ec2/L-1234", quota_code := "L-1234", request_id := "req-1",
        request_status := "", service_code := "ec2", value := Float64.fin 10 } := by
  decide

/-- C5 on the code: a Read with `request_id = "req-1"` whose lookup returns the request
with status `PENDING` or `CASE_OPENED` and desired value `20`, while the current quota
value is `10`, returns the "empty result" error, and the local value afterwards is `10`,
the current quota value, not the desired `20`. -/
theorem read_pending_status_is_error :
    (readWithLookup
        (some { RequestedQuota := some (ec2Request servicequotas.RequestStatusPending 20) }, none)).outcome =
      Outcome.returned (some (fmt.Errorf
        "error getting Service Quotas Requested Service Quota Change (req-1): empty result")) ∧
    (readWithLookup
        (some { RequestedQuota := some (ec2Request servicequotas.RequestStatusPending 20) }, none)).d.value
      = Float64.fin 10 ∧
    (readWithLookup
        (some { RequestedQuota := some (ec2Request servicequotas.RequestStatusCaseOpened 20) }, none)).outcome =
      Outcome.returned (some (fmt.Errorf
        "error getting Service Quotas Requested Service Quota Change (req-1): empty result")) ∧
    (readWithLookup
        (some { RequestedQuota := some (ec2Request servicequotas.RequestStatusCaseOpened 20) }, none)).d.value
      = Float64.fin 10 := by
  decide

/-- C8 on the code: a Read with `request_id = "req-1"` whose lookup reports no failure and
returns a nil output, or an output whose `RequestedQuota` is nil, does not return an
error: it stops on a nil pointer dereference. -/
theorem read_empty_lookup_nil_dereference :
    (readWithLookup (none, none)).outcome = Outcome.nilDereference ∧
    (readWithLookup (some { RequestedQuota := none }, none)).outcome
      = Outcome.nilDereference := by
  decide

/-- Every Read whose lookup reports no failure with an empty result stops on a nil pointer
dereference: the guard of the lookup lets exactly the empty results through. -/
theorem read_empty_lookup_always_nil_dereference {σ : Type} (conn : Conn σ)
    (d : ResourceData) (s s1 s2 : σ) (serviceCode quotaCode : String) (quota : ServiceQuota)
    (output : Option GetRequestedServiceQuotaChangeOutput)
    (hid : resourceAwsServiceQuotasServiceQuotaParseID d.id = (serviceCode, quotaCode, none))
    (hreq : d.request_id ≠ "")
    (hget : conn.GetServiceQuota s
        { QuotaCode := aws.String quotaCode, ServiceCode := aws.String serviceCode } =
      ((some { Quota := some quota }, none), s1))
    (hlook : conn.GetRequestedServiceQuotaChange s1 { RequestId := aws.String d.request_id } =
      ((output, none), s2))
    (hempty : output.bind (·.RequestedQuota) = none) :
    (resourceAwsServiceQuotasServiceQuotaRead conn d s).outcome = Outcome.nilDereference := by
  cases output with
  | none =>
    simp [resourceAwsServiceQuotasServiceQuotaRead, hid, hget, hlook, hreq, isAWSErr]
  | some o =>
    have ho : o.RequestedQuota = none := by simpa using hempty
    simp [resourceAwsServiceQuotasServiceQuotaRead, hid, hget, hlook, hreq, isAWSErr, ho]

/-- The other empty responses are errors: a nil get-quota output in Create and in Read,
and a nil output or nil `RequestedQuota` of the increase request in Create and in
Update. -/
theorem empty_response_is_error_elsewhere {σ : Type} (conn : Conn σ) (d : ResourceData)
    (s : σ) :
    (∀ s1, conn.GetServiceQuota s
        { QuotaCode := aws.String d.quota_code, ServiceCode := aws.String d.service_code } =
        ((none, none), s1) →
      (resourceAwsServiceQuotasServiceQuotaCreate conn d s).outcome =
        Outcome.returned (some (fmt.Errorf
          ("error getting Service Quotas Service Quota ("
            ++ (d.service_code ++ "/" ++ d.quota_code) ++ "): empty result")))) ∧
    (∀ serviceCode quotaCode s1,
      resourceAwsServiceQuotasServiceQuotaParseID d.id = (serviceCode, quotaCode, none) →
      conn.GetServiceQuota s
        { QuotaCode := aws.String quotaCode, ServiceCode := aws.String serviceCode } =
        ((none, none), s1) →
      (resourceAwsServiceQuotasServiceQuotaRead conn d s).outcome =
        Outcome.returned (some (fmt.Errorf
          ("error getting Service Quotas Service Quota (" ++ d.id ++ "): empty result")))) ∧
    (∀ quota output s1 s2,
      conn.GetServiceQuota s
        { QuotaCode := aws.String d.quota_code, ServiceCode := aws.String d.service_code } =
        ((some { Quota := some quota }, none), s1) →
      Float64.gt d.value (aws.Float64Value quota.Value) = true →
      conn.RequestServiceQuotaIncrease s1
        { DesiredValue := aws.Float64 d.value, QuotaCode := aws.String d.quota_code,
          ServiceCode := aws.String d.service_code } = ((output, none), s2) →
      output.bind (·.RequestedQuota) = none →
      (resourceAwsServiceQuotasServiceQuotaCreate conn d s).outcome =
        Outcome.returned (some (fmt.Errorf
          ("error requesting Service Quota (" ++ (d.service_code ++ "/" ++ d.quota_code)
            ++ ") increase: empty result")))) ∧
    (∀ serviceCode quotaCode output s1,
      resourceAwsServiceQuotasServiceQuotaParseID d.id = (serviceCode, quotaCode, none) →
      conn.RequestServiceQuotaIncrease s
        { DesiredValue := aws.Float64 d.value, QuotaCode := aws.String quotaCode,
          ServiceCode := aws.String serviceCode } = ((output, none), s1) →
      output.bind (·.RequestedQuota) = none →
      (resourceAwsServiceQuotasServiceQuotaUpdate conn d s).outcome =
        Outcome.returned (some (fmt.Errorf
          ("error requesting Service Quota (" ++ d.id ++ ") increase: empty result")))) := by
  refine ⟨?_, ?_, ?_, ?_⟩
  · intro s1 hget
    simp [resourceAwsServiceQuotasServiceQuotaCreate, hget, ResourceData.SetId]
  · intro serviceCode quotaCode s1 hid hget
    simp [resourceAwsServiceQuotasServiceQuotaRead, hid, hget]
  · intro quota output s1 s2 hget hgt hinc hempty
    simp [resourceAwsServiceQuotasServiceQuotaCreate, hget, hgt, hinc, hempty,
      ResourceData.SetId]
  · intro serviceCode quotaCode output s1 hid hinc hempty
    simp [resourceAwsServiceQuotasServiceQuotaUpdate, hid, hinc, hempty]

/-! ## Round trip of the identifier -/

/-- C10: the identifier Create builds is `serviceCode ++ "/" ++ quotaCode`; it parses back
to exactly `(serviceCode, quotaCode)` whenever the service code is non-empty and free of
`/` and the quota code is non-empty (it may contain `/`); and whenever the service code
contains a `/`, parsing that identifier does not give back `(serviceCode, quotaCode)`. -/
theorem parseID_roundtrip :
    (∀ (σ : Type) (conn : Conn σ) (d : ResourceData) (s : σ),
      (resourceAwsServiceQuotasServiceQuotaCreate conn d s).d.id
        = d.service_code ++ "/" ++ d.quota_code) ∧
    (∀ serviceCode quotaCode : String,
      serviceCode ≠ "" → '/' ∉ serviceCode.data → quotaCode ≠ "" →
      resourceAwsServiceQuotasServiceQuotaParseID (serviceCode ++ "/" ++ quotaCode) =
        (serviceCode, quotaCode, none)) ∧
    (∀ serviceCode quotaCode : String, '/' ∈ serviceCode.data →
      ((resourceAwsServiceQuotasServiceQuotaParseID (serviceCode ++ "/" ++ quotaCode)).1,
        (resourceAwsServiceQuotasServiceQuotaParseID (serviceCode ++ "/" ++ quotaCode)).2.1)
        ≠ (serviceCode, quotaCode)) := by
  refine ⟨fun σ conn d s => create_id conn d s, ?_, ?_⟩
  · intro sc qc h0 hs hq
    simp [parseID_of_join sc qc hs, h0, hq]
  · intro sc qc hm
    obtain ⟨a, b, ha, rfl⟩ := exists_join sc hm
    have e : a ++ "/" ++ b ++ "/" ++ qc = a ++ "/" ++ (b ++ "/" ++ qc) := by
      simp [String.append_assoc]
    have hne : a ≠ a ++ "/" ++ b := by
      intro e1
      have := congrArg String.data e1
      rw [data_of_join] at this
      have hl := congrArg List.length this
      simp at hl
    have hne0 : "" ≠ a ++ "/" ++ b := by
      intro e1
      have := congrArg String.data e1
      rw [data_of_join] at this
      simp at this
    rw [e, parseID_of_join a _ ha]
    by_cases hab : a = "" ∨ b ++ "/" ++ qc = ""
    · simp only [if_pos hab]
      intro e2
      exact hne0 (congrArg Prod.fst e2)
    · simp only [if_neg hab]
      intro e2
      exact hne (congrArg Prod.fst e2)

/-- Witness for C10: both clauses at concrete codes, the quota code containing a `/`. -/
theorem parseID_roundtrip_witness :
    resourceAwsServiceQuotasServiceQuotaParseID ("ec2" ++ "/" ++ "L-12/34") =
        ("ec2", "L-12/34", none) ∧
      ((resourceAwsServiceQuotasServiceQuotaParseID ("e/c2" ++ "/" ++ "L-1234")).1,
        (resourceAwsServiceQuotasServiceQuotaParseID ("e/c2" ++ "/" ++ "L-1234")).2.1)
        ≠ ("e/c2", "L-1234") :=
  ⟨parseID_roundtrip.2.1 "ec2" "L-12/34" (by decide) (by decide) (by decide),
    parseID_roundtrip.2.2 "e/c2" "L-1234" (by decide)⟩

end AwsServiceQuotas
